import Mathlib

/-!
Shallow embedding of the NVAPI / NvEncodeAPI hooking layer of renderdoc
(`driver/ihv/nv/nvapi_hooks.cpp`), together with theorems checking the
natural-language specification of that layer against the code.

Modelling conventions:
- machine pointers are modelled abstractly: a nullable pointer is an
  `Option Nat` (`none` is NULL), a pointer known to be non-null is a `Nat`;
- the real (vendor) functions that the hooks delegate to are not part of
  the repository, so they are universally quantified environment
  parameters of each hook's model;
- diagnostics (RDCWARN / RDCDEBUG / RDCERR / RDCASSERT) are modelled as
  boolean fields of each hook's result, recording whether the line fired.
-/

/-! ### Identifier dispatch interceptor (`nvapi_QueryInterface_hook`) -/

/-- The eight NVAPI entry points hooked by the `HOOK_NVAPI` lines of the
`NVAPI_FUNCS()` table in `nvapi_hooks.cpp`. -/
inductive NvHookedFn where
  | NvAPI_D3D11_CreateDevice
  | NvAPI_D3D11_CreateDeviceAndSwapChain
  | NvAPI_D3D11_IsNvShaderExtnOpCodeSupported
  | NvAPI_D3D11_SetNvShaderExtnSlot
  | NvAPI_D3D11_SetNvShaderExtnSlotLocalThread
  | NvAPI_D3D12_IsNvShaderExtnOpCodeSupported
  | NvAPI_D3D12_SetNvShaderExtnSlotSpace
  | NvAPI_D3D12_SetNvShaderExtnSlotSpaceLocalThread
  deriving DecidableEq, Repr

/-- The identifier associated to each hooked entry point in `NVAPI_FUNCS()`. -/
def hookIdOf : NvHookedFn → Nat
  | .NvAPI_D3D11_CreateDevice => 0x6a16d3a0
  | .NvAPI_D3D11_CreateDeviceAndSwapChain => 0xbb939ee5
  | .NvAPI_D3D11_IsNvShaderExtnOpCodeSupported => 0x5f68da40
  | .NvAPI_D3D11_SetNvShaderExtnSlot => 0x8e90bb9f
  | .NvAPI_D3D11_SetNvShaderExtnSlotLocalThread => 0x0e6482a0
  | .NvAPI_D3D12_IsNvShaderExtnOpCodeSupported => 0x3dfacec8
  | .NvAPI_D3D12_SetNvShaderExtnSlotSpace => 0xac2dfeb5
  | .NvAPI_D3D12_SetNvShaderExtnSlotSpaceLocalThread => 0x43d867c0

/-- The `case ID:` dispatch of the `HOOK_NVAPI` entries in the `switch` of
`nvapi_QueryInterface_hook`. -/
def hookedFnForId (ID : Nat) : Option NvHookedFn :=
  if ID = 0x6a16d3a0 then some .NvAPI_D3D11_CreateDevice
  else if ID = 0xbb939ee5 then some .NvAPI_D3D11_CreateDeviceAndSwapChain
  else if ID = 0x5f68da40 then some .NvAPI_D3D11_IsNvShaderExtnOpCodeSupported
  else if ID = 0x8e90bb9f then some .NvAPI_D3D11_SetNvShaderExtnSlot
  else if ID = 0x0e6482a0 then some .NvAPI_D3D11_SetNvShaderExtnSlotLocalThread
  else if ID = 0x3dfacec8 then some .NvAPI_D3D12_IsNvShaderExtnOpCodeSupported
  else if ID = 0xac2dfeb5 then some .NvAPI_D3D12_SetNvShaderExtnSlotSpace
  else if ID = 0x43d867c0 then some .NvAPI_D3D12_SetNvShaderExtnSlotSpaceLocalThread
  else none

/-- The `WHITELIST_NVAPI` identifiers: the four whitelisted entries of
`NVAPI_FUNCS()` plus the three unknown identifiers fetched inside
`NvAPI_Initialize` that are whitelisted directly in the `switch`. -/
def whitelistIds : List Nat :=
  [0x0150e828, 0xd22bdd7e, 0x6c2d048c, 0x01053fa5, 0xad298d3f, 0x33c7358c, 0x593e8644]

/-- Mutable singleton state of `NVHook` touched by `nvapi_QueryInterface_hook`:
the per-entry captured real function pointers (the `orig_funcptr` of each
`HookedFunction` member) and the `static int count` rate-limit counter. -/
structure NVHookState where
  captured : NvHookedFn → Option Nat
  count : Nat

/-- State at process start: no real pointer captured yet, counter at 0. -/
def initNVHookState : NVHookState := ⟨fun _ => none, 0⟩

/-- Modelled from the spec: `HookedFunction::SetFuncPtr` is declared in
`hooks/hooks.h`, which is not part of this repository slice.  Per the spec,
the just-obtained real pointer is recorded "first time only; later calls
reuse the cached name/handler mapping", and "once captured, a real pointer
for a given identifier never changes for the life of the process". -/
def setFuncPtr (st : NVHookState) (f : NvHookedFn) (real : Nat) : NVHookState :=
  if (st.captured f).isSome then st
  else { st with captured := fun g => if g = f then some real else st.captured g }

/-- The pointer value returned by `nvapi_QueryInterface_hook`: NULL, the real
vendor pointer obtained from the real resolver, or the address of one of the
local `_hook` handlers. -/
inductive ResolvedPtr where
  | null
  | real (p : Nat)
  | hook (f : NvHookedFn)
  deriving DecidableEq, Repr

/-- Result of one call to `nvapi_QueryInterface_hook`: the returned pointer,
the singleton state afterwards, and which diagnostics fired (`RDCWARN` in the
policy-denial branch, `RDCDEBUG` in the policy-allow branch). -/
structure ResolveOutput where
  result : ResolvedPtr
  state : NVHookState
  warned : Bool
  debugLogged : Bool

/-- `nvapi_QueryInterface_hook`: delegate to the real resolver (`resolver`);
on NULL return it unmodified; for `HOOK_NVAPI` identifiers capture the real
pointer and return the local handler; for `WHITELIST_NVAPI` identifiers return
the real pointer; otherwise consult the vendor-extension policy flag
(`nvapiEnabled`): allow with a debug log, or deny with NULL and a warning
rate-limited to the first 10 denials. -/
def nvapi_QueryInterface_hook (resolver : Nat → Option Nat) (nvapiEnabled : Bool)
    (st : NVHookState) (ID : Nat) : ResolveOutput :=
  match resolver ID with
  | none => ⟨.null, st, false, false⟩
  | some real =>
    match hookedFnForId ID with
    | some f => ⟨.hook f, setFuncPtr st f real, false, false⟩
    | none =>
      if ID ∈ whitelistIds then ⟨.real real, st, false, false⟩
      else if nvapiEnabled then ⟨.real real, st, false, true⟩
      else ⟨.null, { st with count := st.count + 1 }, decide (st.count < 10), false⟩

/-- A sequence of calls to `nvapi_QueryInterface_hook`, threading the
singleton state from call to call. -/
def resolveMany (resolver : Nat → Option Nat) (nvapiEnabled : Bool) :
    NVHookState → List Nat → List ResolveOutput
  | _, [] => []
  | st, i :: rest =>
    let out := nvapi_QueryInterface_hook resolver nvapiEnabled st i
    out :: resolveMany resolver nvapiEnabled out.state rest

/-! ### Object Identity Recovery and the per-identifier local handlers -/

/-- `NVAPI_INVALID_POINTER` from the vendor's `NvAPI_Status` enumeration. -/
def NVAPI_INVALID_POINTER : Int := -14

/-- Side-channel record written by `INVAPID3DDevice::SetShaderExtUAV(space,
reg, global)` on the wrapper device. -/
structure ShaderExtUAV where
  space : Nat
  reg : Nat
  global : Bool
  deriving DecidableEq, Repr

/-- The wrapper-side view recovered by the COM-breaking backdoor
`QueryInterface(__uuidof(INVAPID3DDevice))`: `real` is the underlying real
object returned by `GetReal()`, and `realD3D12` is the result of querying
that real object for `ID3D12Device` (`some dev` on success, `none` when the
real object does not expose the D3D12 device interface). -/
structure INVAPID3DDevice where
  real : Nat
  realD3D12 : Option Nat
  deriving DecidableEq, Repr

/-- An opaque `IUnknown *pDev` argument: `nvapiWrapper` is `some` exactly when
`QueryInterface(__uuidof(INVAPID3DDevice))` succeeds, i.e. when the argument
is one of the tool's own wrapped devices. -/
structure DevArg where
  nvapiWrapper : Option INVAPID3DDevice
  deriving DecidableEq, Repr

/-- Result of a capability-query handler: the returned `NvAPI_Status`, the
final contents of the caller's `*pSupported` (`none` when the out-pointer was
null), and whether the captured real function was invoked. -/
structure OpcodeQueryResult where
  status : Int
  pSupported : Option Bool
  realCalled : Bool
  deriving DecidableEq, Repr

/-- `NvAPI_D3D11_IsNvShaderExtnOpCodeSupported_hook`.  The captured real
function is the environment pair `realStatus` (the status it returns) and
`realWrite` (the value it leaves in `*pSupported`, as a function of the prior
contents, when the pointer is non-null); `SupportedOpcode` is the tool's
supported-opcode predicate from `nvapi_wrapper.h`.  On recovery success the
hook delegates to the real function on `GetReal()`, then overwrites a
non-null `*pSupported` with the AND of the real answer and
`SupportedOpcode(opCode)`; on recovery failure it returns
`NVAPI_INVALID_POINTER`. -/
def NvAPI_D3D11_IsNvShaderExtnOpCodeSupported_hook
    (SupportedOpcode : Nat → Bool)
    (realStatus : Nat → Nat → Option Bool → Int)
    (realWrite : Nat → Nat → Bool → Bool)
    (pDev : DevArg) (opCode : Nat) (pSupported : Option Bool) : OpcodeQueryResult :=
  match pDev.nvapiWrapper with
  | some nvapiDev =>
    let ret := realStatus nvapiDev.real opCode pSupported
    let afterReal := pSupported.map (realWrite nvapiDev.real opCode)
    ⟨ret, afterReal.map (fun v => v && SupportedOpcode opCode), true⟩
  | none => ⟨NVAPI_INVALID_POINTER, pSupported, false⟩

/-- `NvAPI_D3D12_IsNvShaderExtnOpCodeSupported_hook`: as the D3D11 variant,
but after recovery the real object is additionally queried for
`ID3D12Device`; if that query fails the hook returns `NVAPI_INVALID_POINTER`
without invoking the real function, otherwise it delegates on the obtained
`ID3D12Device`. -/
def NvAPI_D3D12_IsNvShaderExtnOpCodeSupported_hook
    (SupportedOpcode : Nat → Bool)
    (realStatus : Nat → Nat → Option Bool → Int)
    (realWrite : Nat → Nat → Bool → Bool)
    (pDev : DevArg) (opCode : Nat) (pSupported : Option Bool) : OpcodeQueryResult :=
  match pDev.nvapiWrapper with
  | some nvapiDev =>
    match nvapiDev.realD3D12 with
    | some dev =>
      let ret := realStatus dev opCode pSupported
      let afterReal := pSupported.map (realWrite dev opCode)
      ⟨ret, afterReal.map (fun v => v && SupportedOpcode opCode), true⟩
    | none => ⟨NVAPI_INVALID_POINTER, pSupported, false⟩
  | none => ⟨NVAPI_INVALID_POINTER, pSupported, false⟩

/-- Result of a slot-assignment handler: the returned `NvAPI_Status`, the
`SetShaderExtUAV` side-channel write performed on the wrapper (`none` when no
write happened), and whether the captured real function was invoked. -/
structure SlotSetResult where
  status : Int
  recorded : Option ShaderExtUAV
  realCalled : Bool
  deriving DecidableEq, Repr

/-- `NvAPI_D3D11_SetNvShaderExtnSlot_hook`: on recovery success delegate to
the real function on `GetReal()`, then record `SetShaderExtUAV(~0U, uavSlot,
TRUE)` and return the delegated status; on failure return
`NVAPI_INVALID_POINTER`. -/
def NvAPI_D3D11_SetNvShaderExtnSlot_hook (realFn : Nat → Nat → Int)
    (pDev : DevArg) (uavSlot : Nat) : SlotSetResult :=
  match pDev.nvapiWrapper with
  | some nvapiDev =>
    ⟨realFn nvapiDev.real uavSlot, some ⟨0xffffffff, uavSlot, true⟩, true⟩
  | none => ⟨NVAPI_INVALID_POINTER, none, false⟩

/-- `NvAPI_D3D11_SetNvShaderExtnSlotLocalThread_hook`: as the global variant
but recording `SetShaderExtUAV(~0U, uavSlot, FALSE)`. -/
def NvAPI_D3D11_SetNvShaderExtnSlotLocalThread_hook (realFn : Nat → Nat → Int)
    (pDev : DevArg) (uavSlot : Nat) : SlotSetResult :=
  match pDev.nvapiWrapper with
  | some nvapiDev =>
    ⟨realFn nvapiDev.real uavSlot, some ⟨0xffffffff, uavSlot, false⟩, true⟩
  | none => ⟨NVAPI_INVALID_POINTER, none, false⟩

/-- `NvAPI_D3D12_SetNvShaderExtnSlotSpace_hook`: on recovery success delegate
to the real function on `GetReal()`, then record `SetShaderExtUAV(uavSpace,
uavSlot, TRUE)` and return the delegated status. -/
def NvAPI_D3D12_SetNvShaderExtnSlotSpace_hook (realFn : Nat → Nat → Nat → Int)
    (pDev : DevArg) (uavSlot uavSpace : Nat) : SlotSetResult :=
  match pDev.nvapiWrapper with
  | some nvapiDev =>
    ⟨realFn nvapiDev.real uavSlot uavSpace, some ⟨uavSpace, uavSlot, true⟩, true⟩
  | none => ⟨NVAPI_INVALID_POINTER, none, false⟩

/-- `NvAPI_D3D12_SetNvShaderExtnSlotSpaceLocalThread_hook`: as the global
variant but recording `SetShaderExtUAV(uavSpace, uavSlot, FALSE)`. -/
def NvAPI_D3D12_SetNvShaderExtnSlotSpaceLocalThread_hook (realFn : Nat → Nat → Nat → Int)
    (pDev : DevArg) (uavSlot uavSpace : Nat) : SlotSetResult :=
  match pDev.nvapiWrapper with
  | some nvapiDev =>
    ⟨realFn nvapiDev.real uavSlot uavSpace, some ⟨uavSpace, uavSlot, false⟩, true⟩
  | none => ⟨NVAPI_INVALID_POINTER, none, false⟩

/-! ### Paired-entry-point convergence (`NvAPI_D3D11_CreateDevice_hook` /
`NvAPI_D3D11_CreateDeviceAndSwapChain_hook`) -/

/-- Record of the surface-related arguments as they reach the real vendor
create function through the delegate: the swap-chain description
(`none` = NULL), whether a non-null swap-chain out-parameter was supplied,
and whether the device-only delegate's
`RDCASSERT(!pSwapChainDesc && !ppSwapChain)` held.  Only the surface-related
arguments are modelled; the adapter/flags/feature-level arguments are
forwarded verbatim by both entry points and play no role in the claims. -/
structure RealCreateCall where
  swapChainDescAtReal : Option Nat
  swapChainOutAtReal : Bool
  assertOk : Bool
  deriving DecidableEq, Repr

/-- Modelled from the spec: `CreateD3D11_Internal` is declared in
`driver/d3d11/d3d11_hooks.h` and its definition is not part of this
repository slice.  Per the spec, the internal creation routine is
"parameterized by all arguments of the richer (surface-creating) entry point
plus a caller-supplied delegate describing how to reach the real vendor
implementation", and "the internal routine must never itself request a
surface when none was asked for": when the real call is eventually made the
delegate receives the surface-related arguments the routine was given,
unchanged. -/
def CreateD3D11_Internal (realCreate : Option Nat → Bool → RealCreateCall)
    (pSwapChainDesc : Option Nat) (ppSwapChain : Bool) : RealCreateCall :=
  realCreate pSwapChainDesc ppSwapChain

/-- `NvAPI_D3D11_CreateDevice_hook`: invokes `CreateD3D11_Internal` with the
surface arguments fixed to NULL and a delegate that asserts they are still
NULL at the real-call boundary and then calls the real device-only vendor
function (which takes no surface arguments at all, so none reach it). -/
def NvAPI_D3D11_CreateDevice_hook : RealCreateCall :=
  CreateD3D11_Internal
    (fun pSwapChainDesc ppSwapChain =>
      { swapChainDescAtReal := none, swapChainOutAtReal := false,
        assertOk := pSwapChainDesc.isNone && !ppSwapChain })
    none false

/-- `NvAPI_D3D11_CreateDeviceAndSwapChain_hook`: invokes
`CreateD3D11_Internal` with the caller's surface arguments and a delegate
that forwards them unchanged to the real combined vendor function. -/
def NvAPI_D3D11_CreateDeviceAndSwapChain_hook (pSwapChainDesc : Option Nat)
    (ppSwapChain : Bool) : RealCreateCall :=
  CreateD3D11_Internal
    (fun desc ppSC =>
      { swapChainDescAtReal := desc, swapChainOutAtReal := ppSC, assertOk := true })
    pSwapChainDesc ppSwapChain

/-! ### Secondary dispatch-table patch (`NvEncodeAPICreateInstance_hook` /
`NvEncodeAPIRegisterResource_hook`) -/

/-- `NVENCSTATUS` values used by the hooks. -/
def NV_ENC_SUCCESS : Nat := 0

def NV_ENC_ERR_INVALID_PTR : Nat := 6

/-- `NV_ENC_INPUT_RESOURCE_TYPE`. -/
inductive NV_ENC_INPUT_RESOURCE_TYPE where
  | NV_ENC_INPUT_RESOURCE_TYPE_DIRECTX
  | NV_ENC_INPUT_RESOURCE_TYPE_CUDADEVICEPTR
  | NV_ENC_INPUT_RESOURCE_TYPE_CUDAARRAY
  | NV_ENC_INPUT_RESOURCE_TYPE_OPENGL_TEX
  deriving DecidableEq, Repr

/-- `NV_ENC_REGISTER_RESOURCE`: the fields the hook reads or writes (the
structure has further data the code never touches, which therefore cannot
differ between input and what the real function sees). -/
structure NV_ENC_REGISTER_RESOURCE where
  version : Nat
  resourceType : NV_ENC_INPUT_RESOURCE_TYPE
  resourceToRegister : Nat
  deriving DecidableEq, Repr

/-- Result of `NvEncodeAPIRegisterResource_hook`: the returned status, the
`params` structure the real registration function saw during the delegated
call (`none` when the real function was not invoked; `some none` when it was
invoked with a NULL `params`), the `params` structure the caller observes
after the hook returns, whether the real function was invoked, and whether
the unwrap-failure `RDCERR` fired. -/
structure RegisterResourceResult where
  status : Nat
  paramsSeenByReal : Option (Option NV_ENC_REGISTER_RESOURCE)
  paramsAfter : Option NV_ENC_REGISTER_RESOURCE
  realCalled : Bool
  unwrapErrLogged : Bool
  deriving DecidableEq, Repr

/-- `NvEncodeAPIRegisterResource_hook`.  `hooked` states whether
`real_nvEncRegisterResource` was captured (non-NULL); `realReg` is the real
registration function (status as a function of the encoder and the `params`
contents it sees); `unwrap` is the external `UnwrapDXResource` collaborator
(`none` = NULL); `encoder` is whether the encoder argument is non-null.  For
a NULL encoder, NULL `params` or a non-DirectX resource kind the call is
delegated with `params` untouched; for the DirectX kind the handle field is
temporarily replaced by the unwrapped value (falling back to the original on
unwrap failure, with an error logged), the call is delegated, and the
original handle is unconditionally restored before returning the real
status. -/
def NvEncodeAPIRegisterResource_hook
    (hooked : Bool) (realReg : Bool → Option NV_ENC_REGISTER_RESOURCE → Nat)
    (unwrap : Nat → Option Nat) (encoder : Bool)
    (params : Option NV_ENC_REGISTER_RESOURCE) : RegisterResourceResult :=
  if hooked = false then ⟨NV_ENC_ERR_INVALID_PTR, none, params, false, false⟩
  else
    match params with
    | none => ⟨realReg encoder none, some none, none, true, false⟩
    | some p =>
      if encoder = false ∨
          p.resourceType ≠ NV_ENC_INPUT_RESOURCE_TYPE.NV_ENC_INPUT_RESOURCE_TYPE_DIRECTX then
        ⟨realReg encoder (some p), some (some p), some p, true, false⟩
      else
        let origHandle := p.resourceToRegister
        let unwrapped := unwrap origHandle
        let seen : NV_ENC_REGISTER_RESOURCE :=
          { p with resourceToRegister := unwrapped.getD origHandle }
        ⟨realReg encoder (some seen), some (some seen), some p, true, unwrapped.isNone⟩

/-- Value of the `nvEncRegisterResource` function-pointer field of the encode
dispatch table: NULL, a real vendor pointer, or the address of the local
`NvEncodeAPIRegisterResource_hook` handler.  The singleton's
`real_nvEncRegisterResource` member has the same representation and starts
as `.null`. -/
inductive EncRegPtr where
  | null
  | real (p : Nat)
  | localHook
  deriving DecidableEq, Repr

/-- `NV_ENCODE_API_FUNCTION_LIST`: the version tag and the one function
pointer the hook patches (the rest of the table is never touched by the
hook). -/
structure NV_ENCODE_API_FUNCTION_LIST where
  version : Nat
  nvEncRegisterResource : EncRegPtr
  deriving DecidableEq, Repr

/-- The one encoded struct version understood by the hook:
`7 << 28 | 8 << 1 | 1 << 24 | 2 << 16`. -/
def expectedVersion : Nat := 7 <<< 28 ||| 8 <<< 1 ||| 1 <<< 24 ||| 2 <<< 16

/-- Result of `NvEncodeAPICreateInstance_hook`: the returned status, the
table contents the caller observes (`none` when the caller passed NULL), the
singleton's `real_nvEncRegisterResource` afterwards, and whether the
version-mismatch `RDCWARN` and the multiple-distinct-pointers `RDCASSERT`
fired. -/
structure CreateInstanceResult where
  status : Nat
  functions : Option NV_ENCODE_API_FUNCTION_LIST
  real_nvEncRegisterResource : EncRegPtr
  versionWarned : Bool
  assertFailed : Bool
  deriving DecidableEq, Repr

/-- `NvEncodeAPICreateInstance_hook`: delegate to the real
`NvEncodeAPICreateInstance` (status `realCreateStatus`, which fills a
non-null table as `realFill`); if it reports `NV_ENC_SUCCESS` and the table
is non-null with a non-null `nvEncRegisterResource` pointer, capture that
pointer (asserting consistency with a previously captured one), overwrite
the table field with the local handler, and warn (non-fatally) when the
version tag differs from `expectedVersion`; always return the real status. -/
def NvEncodeAPICreateInstance_hook
    (realCreateStatus : Option NV_ENCODE_API_FUNCTION_LIST → Nat)
    (realFill : NV_ENCODE_API_FUNCTION_LIST → NV_ENCODE_API_FUNCTION_LIST)
    (prev : EncRegPtr) (functions : Option NV_ENCODE_API_FUNCTION_LIST) :
    CreateInstanceResult :=
  let ret := realCreateStatus functions
  match functions.map realFill with
  | some t =>
    if ret = NV_ENC_SUCCESS ∧ t.nvEncRegisterResource ≠ EncRegPtr.null then
      { status := ret,
        functions := some { t with nvEncRegisterResource := EncRegPtr.localHook },
        real_nvEncRegisterResource := t.nvEncRegisterResource,
        versionWarned := decide (t.version ≠ expectedVersion),
        assertFailed :=
          decide (¬(prev = EncRegPtr.null ∨ prev = t.nvEncRegisterResource)) }
    else ⟨ret, some t, prev, false, false⟩
  | none => ⟨ret, none, prev, false, false⟩

theorem hookedFnForId_hookIdOf (f : NvHookedFn) : hookedFnForId (hookIdOf f) = some f := by
  cases f <;> rfl

theorem setFuncPtr_already (st : NVHookState) (f : NvHookedFn) (q : Nat)
    (h : (st.captured f).isSome = true) : setFuncPtr st f q = st := by
  simp [setFuncPtr, h]

theorem resolveMany_denied (resolver : Nat → Option Nat) (ids : List Nat)
    (hids : ∀ i ∈ ids, hookedFnForId i = none ∧ i ∉ whitelistIds ∧
      (resolver i).isSome = true) (st : NVHookState) :
    ∀ k out, (resolveMany resolver false st ids).get? k = some out →
      out.result = ResolvedPtr.null ∧
      out.warned = decide (st.count + k < 10) ∧
      out.state.count = st.count + k + 1 := by
  induction ids generalizing st with
  | nil => intro k out h; simp [resolveMany] at h
  | cons i rest ih =>
    intro k out h
    obtain ⟨hhook, hwl, hsome⟩ := hids i (List.mem_cons_self i rest)
    obtain ⟨p, hp⟩ := Option.isSome_iff_exists.mp hsome
    have hstep : nvapi_QueryInterface_hook resolver false st i =
        ⟨ResolvedPtr.null, { st with count := st.count + 1 }, decide (st.count < 10), false⟩ := by
      unfold nvapi_QueryInterface_hook
      rw [hp, hhook]
      simp [hwl]
    match k with
    | 0 =>
      simp only [resolveMany, List.get?] at h
      rw [hstep] at h
      obtain rfl := Option.some_injective _ h
      simp
    | k + 1 =>
      simp only [resolveMany, List.get?] at h
      rw [hstep] at h
      have hrest : ∀ j ∈ rest, hookedFnForId j = none ∧ j ∉ whitelistIds ∧
          (resolver j).isSome = true := fun j hj => hids j (List.mem_cons_of_mem i hj)
      have := ih hrest { st with count := st.count + 1 } k out h
      simpa [Nat.add_assoc, Nat.add_comm 1 k] using this

/-- C2: for every identifier in the hard-coded hook set, if the real resolver
yields null the intercepted resolve returns null unmodified with no handler
substituted and no real pointer recorded; otherwise it returns the address of
the designated local handler (never the real pointer) and records the
just-obtained real pointer, first time only, so a second resolution of the
same identifier (with any later resolver result) leaves the captured real
pointer unchanged. -/
theorem nv_queryInterface_hookset_capture
    (f : NvHookedFn) (resolver resolver2 : Nat → Option Nat) (enabled enabled2 : Bool)
    (st : NVHookState) :
    (resolver (hookIdOf f) = none →
      nvapi_QueryInterface_hook resolver enabled st (hookIdOf f) =
        ⟨ResolvedPtr.null, st, false, false⟩) ∧
    (∀ p, resolver (hookIdOf f) = some p →
      (nvapi_QueryInterface_hook resolver enabled st (hookIdOf f)).result =
        ResolvedPtr.hook f ∧
      (st.captured f = none →
        (nvapi_QueryInterface_hook resolver enabled st (hookIdOf f)).state.captured f =
          some p ∧
        (∀ q, resolver2 (hookIdOf f) = some q →
          (nvapi_QueryInterface_hook resolver2 enabled2
              (nvapi_QueryInterface_hook resolver enabled st (hookIdOf f)).state
              (hookIdOf f)).state.captured f = some p))) := by
  constructor
  · intro hnull
    unfold nvapi_QueryInterface_hook
    rw [hnull]
  · intro p hp
    have hstep : nvapi_QueryInterface_hook resolver enabled st (hookIdOf f) =
        ⟨ResolvedPtr.hook f, setFuncPtr st f p, false, false⟩ := by
      unfold nvapi_QueryInterface_hook
      rw [hp, hookedFnForId_hookIdOf]
    refine ⟨by rw [hstep], ?_⟩
    intro hnone
    have hcap1 : (setFuncPtr st f p).captured f = some p := by
      unfold setFuncPtr
      rw [hnone]
      simp
    refine ⟨by rw [hstep]; exact hcap1, ?_⟩
    intro q hq
    have hstep2 : nvapi_QueryInterface_hook resolver2 enabled2 (setFuncPtr st f p)
        (hookIdOf f) = ⟨ResolvedPtr.hook f, setFuncPtr (setFuncPtr st f p) f q,
          false, false⟩ := by
      unfold nvapi_QueryInterface_hook
      rw [hq, hookedFnForId_hookIdOf]
    simp only [hstep, hstep2]
    rw [setFuncPtr_already (setFuncPtr st f p) f q (by rw [hcap1]; rfl)]
    exact hcap1

/-- Witness for C2 at the `NvAPI_D3D11_SetNvShaderExtnSlot` identifier
0x8e90bb9f: from the initial state a first resolution (real pointer 7)
returns the local handler and captures 7; a second resolution whose real
resolver now yields 9 leaves the captured pointer at 7. -/
theorem nv_queryInterface_hookset_capture_witness :
    (nvapi_QueryInterface_hook (fun _ => some 7) false initNVHookState
        (hookIdOf .NvAPI_D3D11_SetNvShaderExtnSlot)).result =
      ResolvedPtr.hook .NvAPI_D3D11_SetNvShaderExtnSlot ∧
    (nvapi_QueryInterface_hook (fun _ => some 7) false initNVHookState
        (hookIdOf .NvAPI_D3D11_SetNvShaderExtnSlot)).state.captured
      .NvAPI_D3D11_SetNvShaderExtnSlot = some 7 ∧
    (nvapi_QueryInterface_hook (fun _ => some 9) true
        (nvapi_QueryInterface_hook (fun _ => some 7) false initNVHookState
          (hookIdOf .NvAPI_D3D11_SetNvShaderExtnSlot)).state
        (hookIdOf .NvAPI_D3D11_SetNvShaderExtnSlot)).state.captured
      .NvAPI_D3D11_SetNvShaderExtnSlot = some 7 := by
  have h := nv_queryInterface_hookset_capture .NvAPI_D3D11_SetNvShaderExtnSlot
    (fun _ => some 7) (fun _ => some 9) false true initNVHookState
  exact ⟨(h.2 7 rfl).1, ((h.2 7 rfl).2 rfl).1, ((h.2 7 rfl).2 rfl).2 9 rfl⟩

theorem whitelist_not_hooked : whitelistIds.all (fun i => (hookedFnForId i).isNone) = true := by
  decide

/-- C3: for every identifier in the hard-coded always-allow set, whenever the
real resolver yields a non-null pointer, the intercepted resolve returns
exactly that real pointer unmodified (singleton state untouched, nothing
logged), for both values of the vendor-extension policy flag. -/
theorem nv_queryInterface_whitelist_passthrough
    (ID : Nat) (hID : ID ∈ whitelistIds) (resolver : Nat → Option Nat)
    (st : NVHookState) (p : Nat) (hp : resolver ID = some p) (enabled : Bool) :
    nvapi_QueryInterface_hook resolver enabled st ID =
      ⟨ResolvedPtr.real p, st, false, false⟩ := by
  have hhook : hookedFnForId ID = none := by
    have := List.all_eq_true.mp whitelist_not_hooked ID hID
    exact Option.isNone_iff_eq_none.mp this
  unfold nvapi_QueryInterface_hook
  rw [hp, hhook]
  simp [hID]

/-- Witness for C3 at the `NvAPI_Initialize` identifier 0x0150e828 with real
pointer 5: the real pointer is passed through for both policy flag values. -/
theorem nv_queryInterface_whitelist_passthrough_witness :
    nvapi_QueryInterface_hook (fun _ => some 5) true initNVHookState 0x0150e828 =
      ⟨ResolvedPtr.real 5, initNVHookState, false, false⟩ ∧
    nvapi_QueryInterface_hook (fun _ => some 5) false initNVHookState 0x0150e828 =
      ⟨ResolvedPtr.real 5, initNVHookState, false, false⟩ :=
  ⟨nv_queryInterface_whitelist_passthrough 0x0150e828 (by decide) (fun _ => some 5)
      initNVHookState 5 rfl true,
    nv_queryInterface_whitelist_passthrough 0x0150e828 (by decide) (fun _ => some 5)
      initNVHookState 5 rfl false⟩

/-- C4: for every sequence of resolutions of identifiers outside both the hook
set and the always-allow set while the vendor-extension policy flag is
disabled, starting at process start: each resolution returns null, and the
warning diagnostic fires exactly for the first 10 denials (0-based positions
0..9), so from the 11th denial onward no diagnostic is emitted. -/
theorem nv_queryInterface_denial_rate_limit (resolver : Nat → Option Nat)
    (ids : List Nat)
    (hids : ∀ i ∈ ids, hookedFnForId i = none ∧ i ∉ whitelistIds ∧
      (resolver i).isSome = true) :
    ∀ k out, (resolveMany resolver false initNVHookState ids).get? k = some out →
      out.result = ResolvedPtr.null ∧ out.warned = decide (k < 10) := by
  intro k out h
  have := resolveMany_denied resolver ids hids initNVHookState k out h
  exact ⟨this.1, by simpa [initNVHookState] using this.2.1⟩

/-- Witness for C4: twelve consecutive denials of the unrecognized identifier
0x11223344; the 10th denial (position 9) warns, the 11th (position 10) and
12th (position 11) do not, and all return null. -/
theorem nv_queryInterface_denial_rate_limit_witness :
    (∀ out, (resolveMany (fun _ => some 3) false initNVHookState
        (List.replicate 12 0x11223344)).get? 9 = some out →
      out.result = ResolvedPtr.null ∧ out.warned = decide (9 < 10)) ∧
    (∀ out, (resolveMany (fun _ => some 3) false initNVHookState
        (List.replicate 12 0x11223344)).get? 10 = some out →
      out.result = ResolvedPtr.null ∧ out.warned = decide (10 < 10)) ∧
    (∀ out, (resolveMany (fun _ => some 3) false initNVHookState
        (List.replicate 12 0x11223344)).get? 11 = some out →
      out.result = ResolvedPtr.null ∧ out.warned = decide (11 < 10)) :=
  ⟨nv_queryInterface_denial_rate_limit (fun _ => some 3) (List.replicate 12 0x11223344)
      (by decide) 9,
    nv_queryInterface_denial_rate_limit (fun _ => some 3) (List.replicate 12 0x11223344)
      (by decide) 10,
    nv_queryInterface_denial_rate_limit (fun _ => some 3) (List.replicate 12 0x11223344)
      (by decide) 11⟩

/-- C1: for every call to a capability-query handler (D3D11 or D3D12 variant)
on a recognized wrapper device with a non-null `pSupported` out-parameter, the
reported supported value is exactly the AND of the value the delegated real
function wrote and the tool's supported-opcode predicate at the opcode (true
iff both are true), and the status returned is the delegated call's status. -/
theorem nv_isOpcodeSupported_reports_and
    (SupportedOpcode : Nat → Bool) (realStatus : Nat → Nat → Option Bool → Int)
    (realWrite : Nat → Nat → Bool → Bool) (realDev dev12 : Nat) (rd12 : Option Nat)
    (opCode : Nat) (v : Bool) :
    ((NvAPI_D3D11_IsNvShaderExtnOpCodeSupported_hook SupportedOpcode realStatus
        realWrite ⟨some ⟨realDev, rd12⟩⟩ opCode (some v)).status =
      realStatus realDev opCode (some v) ∧
     (NvAPI_D3D11_IsNvShaderExtnOpCodeSupported_hook SupportedOpcode realStatus
        realWrite ⟨some ⟨realDev, rd12⟩⟩ opCode (some v)).pSupported =
      some (realWrite realDev opCode v && SupportedOpcode opCode)) ∧
    ((NvAPI_D3D12_IsNvShaderExtnOpCodeSupported_hook SupportedOpcode realStatus
        realWrite ⟨some ⟨realDev, some dev12⟩⟩ opCode (some v)).status =
      realStatus dev12 opCode (some v) ∧
     (NvAPI_D3D12_IsNvShaderExtnOpCodeSupported_hook SupportedOpcode realStatus
        realWrite ⟨some ⟨realDev, some dev12⟩⟩ opCode (some v)).pSupported =
      some (realWrite dev12 opCode v && SupportedOpcode opCode)) ∧
    ((NvAPI_D3D11_IsNvShaderExtnOpCodeSupported_hook SupportedOpcode realStatus
        realWrite ⟨some ⟨realDev, rd12⟩⟩ opCode (some v)).pSupported = some true ↔
      realWrite realDev opCode v = true ∧ SupportedOpcode opCode = true) := by
  refine ⟨⟨rfl, rfl⟩, ⟨rfl, rfl⟩, ?_⟩
  simp [NvAPI_D3D11_IsNvShaderExtnOpCodeSupported_hook, Bool.and_eq_true]

/-- C7: for every call to a slot-assignment handler on a recognized wrapper
device, the handler delegates to the real function with the real underlying
object and then records the requested slot (and space for the space-qualified
variants) on the wrapper's side-channel state tagged thread-local
(`global = false`) or global (`global = true`), unconditionally and for every
possible delegated status, while returning the delegated status unmodified
(the D3D11 variants record `~0U` as the space). -/
theorem nv_setShaderExtnSlot_records
    (realFn11 : Nat → Nat → Int) (realFn12 : Nat → Nat → Nat → Int)
    (realDev : Nat) (rd12 : Option Nat) (uavSlot uavSpace : Nat) :
    NvAPI_D3D11_SetNvShaderExtnSlot_hook realFn11 ⟨some ⟨realDev, rd12⟩⟩ uavSlot =
      ⟨realFn11 realDev uavSlot, some ⟨0xffffffff, uavSlot, true⟩, true⟩ ∧
    NvAPI_D3D11_SetNvShaderExtnSlotLocalThread_hook realFn11 ⟨some ⟨realDev, rd12⟩⟩
        uavSlot =
      ⟨realFn11 realDev uavSlot, some ⟨0xffffffff, uavSlot, false⟩, true⟩ ∧
    NvAPI_D3D12_SetNvShaderExtnSlotSpace_hook realFn12 ⟨some ⟨realDev, rd12⟩⟩
        uavSlot uavSpace =
      ⟨realFn12 realDev uavSlot uavSpace, some ⟨uavSpace, uavSlot, true⟩, true⟩ ∧
    NvAPI_D3D12_SetNvShaderExtnSlotSpaceLocalThread_hook realFn12 ⟨some ⟨realDev, rd12⟩⟩
        uavSlot uavSpace =
      ⟨realFn12 realDev uavSlot uavSpace, some ⟨uavSpace, uavSlot, false⟩, true⟩ :=
  ⟨rfl, rfl, rfl, rfl⟩

/-- C8: for every hooked handler of either shape, when Object Identity
Recovery fails on the device argument (the backdoor interface query does not
succeed, `nvapiWrapper = none`), the handler returns the vendor's
`NVAPI_INVALID_POINTER` status, does not invoke the captured real function,
leaves a non-null `*pSupported` untouched, and performs no side-channel
write. -/
theorem nv_recovery_failure_invalid_pointer
    (SupportedOpcode : Nat → Bool) (realStatus : Nat → Nat → Option Bool → Int)
    (realWrite : Nat → Nat → Bool → Bool) (realFn11 : Nat → Nat → Int)
    (realFn12 : Nat → Nat → Nat → Int) (opCode uavSlot uavSpace : Nat)
    (pSupported : Option Bool) :
    NvAPI_D3D11_IsNvShaderExtnOpCodeSupported_hook SupportedOpcode realStatus
        realWrite ⟨none⟩ opCode pSupported =
      ⟨NVAPI_INVALID_POINTER, pSupported, false⟩ ∧
    NvAPI_D3D12_IsNvShaderExtnOpCodeSupported_hook SupportedOpcode realStatus
        realWrite ⟨none⟩ opCode pSupported =
      ⟨NVAPI_INVALID_POINTER, pSupported, false⟩ ∧
    NvAPI_D3D11_SetNvShaderExtnSlot_hook realFn11 ⟨none⟩ uavSlot =
      ⟨NVAPI_INVALID_POINTER, none, false⟩ ∧
    NvAPI_D3D11_SetNvShaderExtnSlotLocalThread_hook realFn11 ⟨none⟩ uavSlot =
      ⟨NVAPI_INVALID_POINTER, none, false⟩ ∧
    NvAPI_D3D12_SetNvShaderExtnSlotSpace_hook realFn12 ⟨none⟩ uavSlot uavSpace =
      ⟨NVAPI_INVALID_POINTER, none, false⟩ ∧
    NvAPI_D3D12_SetNvShaderExtnSlotSpaceLocalThread_hook realFn12 ⟨none⟩ uavSlot
        uavSpace =
      ⟨NVAPI_INVALID_POINTER, none, false⟩ :=
  ⟨rfl, rfl, rfl, rfl, rfl, rfl⟩

/-- C10: for every call to the D3D12 capability-query handler where Object
Identity Recovery succeeds but the recovered real object does not expose the
`ID3D12Device` interface, the handler returns `NVAPI_INVALID_POINTER` without
invoking the captured real function and leaves `*pSupported` untouched — a
third outcome specific to the D3D12 variant. -/
theorem nv_d3d12_query_noD3D12_invalid_pointer
    (SupportedOpcode : Nat → Bool) (realStatus : Nat → Nat → Option Bool → Int)
    (realWrite : Nat → Nat → Bool → Bool) (realDev opCode : Nat)
    (pSupported : Option Bool) :
    NvAPI_D3D12_IsNvShaderExtnOpCodeSupported_hook SupportedOpcode realStatus
        realWrite ⟨some ⟨realDev, none⟩⟩ opCode pSupported =
      ⟨NVAPI_INVALID_POINTER, pSupported, false⟩ :=
  rfl

/-- C6: the device-only creation entry point never lets a surface description
or swap-chain out-parameter reach the real vendor function — the delegate's
assertion that they remain absent at the real-call boundary holds — while the
combined entry point invoked with a non-null surface description forwards
that description and the swap-chain out-parameter to the real function
unchanged. -/
theorem nv_createDevice_surface_absent (pSwapChainDesc : Nat) (ppSwapChain : Bool) :
    (NvAPI_D3D11_CreateDevice_hook.swapChainDescAtReal = none ∧
     NvAPI_D3D11_CreateDevice_hook.swapChainOutAtReal = false ∧
     NvAPI_D3D11_CreateDevice_hook.assertOk = true) ∧
    ((NvAPI_D3D11_CreateDeviceAndSwapChain_hook (some pSwapChainDesc)
        ppSwapChain).swapChainDescAtReal = some pSwapChainDesc ∧
     (NvAPI_D3D11_CreateDeviceAndSwapChain_hook (some pSwapChainDesc)
        ppSwapChain).swapChainOutAtReal = ppSwapChain) :=
  ⟨⟨rfl, rfl, rfl⟩, ⟨rfl, rfl⟩⟩

/-- C5 counterexample: with a captured real function, a DirectX-kind
registration arriving with a NULL encoder handle is delegated with the
caller's original handle (5) untouched, even though the translation
collaborator would have produced a different unwrapped value (99) — so the
handle field does not hold the translated value during the delegated call,
contrary to the claim, which conditions only on the resource kind. -/
theorem nv_encRegisterResource_null_encoder_cex :
    (NvEncodeAPIRegisterResource_hook true (fun _ _ => 0) (fun _ => some 99) false
        (some ⟨0, .NV_ENC_INPUT_RESOURCE_TYPE_DIRECTX, 5⟩)).paramsSeenByReal =
      some (some ⟨0, .NV_ENC_INPUT_RESOURCE_TYPE_DIRECTX, 5⟩) ∧
    (NvEncodeAPIRegisterResource_hook true (fun _ _ => 0) (fun _ => some 99) false
        (some ⟨0, .NV_ENC_INPUT_RESOURCE_TYPE_DIRECTX, 5⟩)).paramsSeenByReal ≠
      some (some ⟨0, .NV_ENC_INPUT_RESOURCE_TYPE_DIRECTX, 99⟩) ∧
    (fun _ => some (99 : Nat)) 5 = some 99 := by
  decide

/-- C5 (amended): with a captured real function, a non-DirectX resource kind
is delegated with the argument structure bit-identical to the caller's input;
for the DirectX kind *with a non-null encoder handle*, the handle field holds
the translated (unwrapped) value during the delegated call — falling back to
the original handle, with an error logged, when translation fails, the call
still being delegated — and the structure observed by the caller after return
is the original one, for every delegated status. -/
theorem nv_encRegisterResource_restores_handle
    (realReg : Bool → Option NV_ENC_REGISTER_RESOURCE → Nat)
    (unwrap : Nat → Option Nat) (encoder : Bool) (p : NV_ENC_REGISTER_RESOURCE) :
    (p.resourceType ≠ .NV_ENC_INPUT_RESOURCE_TYPE_DIRECTX →
      NvEncodeAPIRegisterResource_hook true realReg unwrap encoder (some p) =
        ⟨realReg encoder (some p), some (some p), some p, true, false⟩) ∧
    (p.resourceType = .NV_ENC_INPUT_RESOURCE_TYPE_DIRECTX →
      NvEncodeAPIRegisterResource_hook true realReg unwrap true (some p) =
        ⟨realReg true (some { p with resourceToRegister :=
            (unwrap p.resourceToRegister).getD p.resourceToRegister }),
          some (some { p with resourceToRegister :=
            (unwrap p.resourceToRegister).getD p.resourceToRegister }),
          some p, true, (unwrap p.resourceToRegister).isNone⟩) := by
  constructor
  · intro h
    simp [NvEncodeAPIRegisterResource_hook, h]
  · intro h
    simp [NvEncodeAPIRegisterResource_hook, h]

/-- Witness for the amended C5: a CUDA-array registration is passed through
bit-identically, and a DirectX registration with non-null encoder is
delegated with the unwrapped handle 99 in place of 5 and restored to 5 for
the caller, the real status 2 being returned in both cases. -/
theorem nv_encRegisterResource_restores_handle_witness :
    NvEncodeAPIRegisterResource_hook true (fun _ _ => 2) (fun _ => some 99) true
        (some ⟨1, .NV_ENC_INPUT_RESOURCE_TYPE_CUDAARRAY, 5⟩) =
      ⟨2, some (some ⟨1, .NV_ENC_INPUT_RESOURCE_TYPE_CUDAARRAY, 5⟩),
        some ⟨1, .NV_ENC_INPUT_RESOURCE_TYPE_CUDAARRAY, 5⟩, true, false⟩ ∧
    NvEncodeAPIRegisterResource_hook true (fun _ _ => 2) (fun _ => some 99) true
        (some ⟨1, .NV_ENC_INPUT_RESOURCE_TYPE_DIRECTX, 5⟩) =
      ⟨2, some (some ⟨1, .NV_ENC_INPUT_RESOURCE_TYPE_DIRECTX, 99⟩),
        some ⟨1, .NV_ENC_INPUT_RESOURCE_TYPE_DIRECTX, 5⟩, true, false⟩ :=
  ⟨(nv_encRegisterResource_restores_handle (fun _ _ => 2) (fun _ => some 99) true
      ⟨1, .NV_ENC_INPUT_RESOURCE_TYPE_CUDAARRAY, 5⟩).1 (by decide),
    (nv_encRegisterResource_restores_handle (fun _ _ => 2) (fun _ => some 99) true
      ⟨1, .NV_ENC_INPUT_RESOURCE_TYPE_DIRECTX, 5⟩).2 rfl⟩

/-- C9: whenever the real encoder initializer reports success and the
returned table's resource-registration pointer is non-null, the hook captures
that real pointer (whatever was captured before, the assertion being only a
diagnostic), overwrites the table's registration field with the local
handler, warns exactly when the version tag differs from the one expected
encoded value while hooking still completes, and returns the initializer's
status unchanged. -/
theorem nv_encCreateInstance_patches_table
    (realCreateStatus : Option NV_ENCODE_API_FUNCTION_LIST → Nat)
    (realFill : NV_ENCODE_API_FUNCTION_LIST → NV_ENCODE_API_FUNCTION_LIST)
    (prev : EncRegPtr) (t0 : NV_ENCODE_API_FUNCTION_LIST) (p : Nat)
    (hsucc : realCreateStatus (some t0) = NV_ENC_SUCCESS)
    (hreg : (realFill t0).nvEncRegisterResource = EncRegPtr.real p) :
    (NvEncodeAPICreateInstance_hook realCreateStatus realFill prev (some t0)).status =
      NV_ENC_SUCCESS ∧
    (NvEncodeAPICreateInstance_hook realCreateStatus realFill prev
        (some t0)).real_nvEncRegisterResource = EncRegPtr.real p ∧
    (NvEncodeAPICreateInstance_hook realCreateStatus realFill prev (some t0)).functions =
      some { realFill t0 with nvEncRegisterResource := EncRegPtr.localHook } ∧
    (NvEncodeAPICreateInstance_hook realCreateStatus realFill prev
        (some t0)).versionWarned = decide ((realFill t0).version ≠ expectedVersion) := by
  simp [NvEncodeAPICreateInstance_hook, hsucc, hreg]

/-- Witness for C9: a table whose real registration pointer is 3 and whose
version tag 0x12345 differs from the expected value is patched to the local
handler with the warning fired, the pointer 3 being captured although a
different pointer 7 was captured earlier (the assertion is diagnostic only),
with the success status returned. -/
theorem nv_encCreateInstance_patches_table_witness :
    (NvEncodeAPICreateInstance_hook (fun _ => 0)
        (fun _ => ⟨0x12345, EncRegPtr.real 3⟩) (EncRegPtr.real 7)
        (some ⟨0, EncRegPtr.null⟩)).status = NV_ENC_SUCCESS ∧
    (NvEncodeAPICreateInstance_hook (fun _ => 0)
        (fun _ => ⟨0x12345, EncRegPtr.real 3⟩) (EncRegPtr.real 7)
        (some ⟨0, EncRegPtr.null⟩)).real_nvEncRegisterResource = EncRegPtr.real 3 ∧
    (NvEncodeAPICreateInstance_hook (fun _ => 0)
        (fun _ => ⟨0x12345, EncRegPtr.real 3⟩) (EncRegPtr.real 7)
        (some ⟨0, EncRegPtr.null⟩)).functions =
      some ⟨0x12345, EncRegPtr.localHook⟩ ∧
    (NvEncodeAPICreateInstance_hook (fun _ => 0)
        (fun _ => ⟨0x12345, EncRegPtr.real 3⟩) (EncRegPtr.real 7)
        (some ⟨0, EncRegPtr.null⟩)).versionWarned = true := by
  have h := nv_encCreateInstance_patches_table (fun _ => 0)
    (fun _ => ⟨0x12345, EncRegPtr.real 3⟩) (EncRegPtr.real 7) ⟨0, EncRegPtr.null⟩ 3
    rfl rfl
  exact ⟨h.1, h.2.1, h.2.2.1, by rw [h.2.2.2]; decide⟩

